import Mathlib

/-!
Verification development for the bullet-mcp scoring engine.

The definitions below are a shallow embedding of the TypeScript source
(`src/server.ts` and `src/constants.ts`): strings are Lean `String`s
(lists of characters, adequate for the ASCII word lists and thresholds the
engine uses), JavaScript numbers are `Nat` (all quantities in the engine
are non-negative integers; `Math.max(0, a - b)` on naturals is Nat
subtraction, and `Math.round(p / q)` on exact non-negative rationals is
`jsRound p q` below — the double-precision evaluation in the source cannot
change the rounded value because every quotient the engine rounds is at
distance at least `1/(2q)` from the nearest half-integer unless it is
exactly a representable half-integer).
-/

namespace BulletMcp

/-! ## String helpers (JavaScript semantics, written over `List Char`
so that everything reduces in the kernel) -/

/-- Models JavaScript `String.prototype.trim` (for the ASCII whitespace the
engine encounters). -/
def jsTrim (s : String) : String :=
  String.mk (((s.data.dropWhile Char.isWhitespace).reverse.dropWhile Char.isWhitespace).reverse)

/-- Models `String.prototype.toLowerCase` on ASCII data. -/
def jsToLower (s : String) : String :=
  String.mk (s.data.map Char.toLower)

/-- Word accumulator for `splitWsTrim`: splits a character list at
whitespace runs, producing the non-empty tokens in order. -/
def wordsAux : List Char → List Char → List (List Char)
  | [], cur => if cur.isEmpty then [] else [cur.reverse]
  | c :: rest, cur =>
    if c.isWhitespace then
      (if cur.isEmpty then wordsAux rest [] else cur.reverse :: wordsAux rest [])
    else wordsAux rest (c :: cur)

/-- Models `text.trim().split(/\s+/)` from the source: on a string with a
non-empty trim this is the list of whitespace-separated words; on an
all-whitespace string JavaScript yields `[""]`. -/
def splitWsTrim (s : String) : List String :=
  match wordsAux (jsTrim s).data [] with
  | [] => [""]
  | w :: ws => (w :: ws).map String.mk

/-- `charsStart pat s` : is `pat` a prefix of `s`? -/
def charsStart : List Char → List Char → Bool
  | [], _ => true
  | _ :: _, [] => false
  | p :: ps, c :: cs => (p == c) && charsStart ps cs

/-- `charsContain s pat` : does `s` contain `pat` as a contiguous
substring?  Models `String.prototype.includes`. -/
def charsContain : List Char → List Char → Bool
  | [], pat => pat.isEmpty
  | c :: rest, pat => charsStart pat (c :: rest) || charsContain rest pat

/-- Models `s.includes(pat)`. -/
def strContains (s pat : String) : Bool :=
  charsContain s.data pat.data

/-- Models `s.endsWith(suf)`. -/
def strEndsWith (s suf : String) : Bool :=
  charsStart suf.data.reverse s.data.reverse

/-- Models `.replace(/[^a-z]/g, '')` (applied after lowercasing). -/
def stripToAlpha (s : String) : String :=
  String.mk (s.data.filter (fun c => decide ('a' ≤ c) && decide (c ≤ 'z')))

/-- Models `Array.prototype.join(sep)`. -/
def joinSep (sep : String) : List String → String
  | [] => ""
  | [x] => x
  | x :: y :: rest => x ++ sep ++ joinSep sep (y :: rest)

/-- Models `s.substring(0, n)`. -/
def takeChars (s : String) (n : Nat) : String :=
  String.mk (s.data.take n)

/-! ## Numeric and list helpers -/

/-- `Math.round(num / den)` for non-negative integers `num`, `den`
(round-half-up, as JavaScript does for non-negative arguments). -/
def jsRound (num den : Nat) : Nat :=
  (2 * num + den) / (2 * den)

/-- First-occurrence key order: the iteration order of a JavaScript `Map`
whose keys are inserted while scanning a list left to right. -/
def keyOrderAux [DecidableEq α] : List α → List α → List α
  | [], _ => []
  | a :: rest, seen =>
    if a ∈ seen then keyOrderAux rest seen else a :: keyOrderAux rest (a :: seen)

/-- Distinct elements of a list in first-occurrence order. -/
def keyOrder [DecidableEq α] (l : List α) : List α :=
  keyOrderAux l []

/-- Occurrence count of `a` in `l`. -/
def countEq [DecidableEq α] (l : List α) (a : α) : Nat :=
  (l.filter (fun x => decide (x = a))).length

/-- The scanning loop of `getMostCommon`: walk the keys in insertion
order, keeping the first key whose count strictly exceeds the running
maximum (which starts at 0). -/
def mostCommonAux [DecidableEq α] (arr : List α) : List α → α → Nat → α
  | [], best, _ => best
  | k :: rest, best, maxCount =>
    if maxCount < countEq arr k then mostCommonAux arr rest k (countEq arr k)
    else mostCommonAux arr rest best maxCount

/-- Models `getMostCommon` from the source: `undefined` (here `none`) on
an empty array, otherwise the highest-count element with ties broken by
first occurrence. -/
def getMostCommon [DecidableEq α] (arr : List α) : Option α :=
  match arr with
  | [] => none
  | a :: _ => some (mostCommonAux arr (keyOrder arr) a 0)

/-! ## Data model (`src/types.ts`) -/

inductive Severity where
  | error
  | warning
  | suggestion
deriving DecidableEq, Repr

inductive Importance where
  | high
  | medium
  | low
deriving DecidableEq, Repr

inductive Grade where
  | A
  | B
  | C
  | D
  | F
deriving DecidableEq, Repr

inductive Context where
  | document
  | presentation
  | reference
deriving DecidableEq, Repr

inductive ContextFit where
  | excellent
  | good
  | poor
deriving DecidableEq, Repr

inductive GrammarPattern where
  | verbImperative
  | verbGerund
  | nounPhrase
  | sentence
  | unknown
deriving DecidableEq, Repr

/-- The string the source uses for each grammar pattern. -/
def GrammarPattern.str : GrammarPattern → String
  | .verbImperative => "verb-imperative"
  | .verbGerund => "verb-gerund"
  | .nounPhrase => "noun-phrase"
  | .sentence => "sentence"
  | .unknown => "unknown"

structure ValidationIssue where
  rule : String
  severity : Severity
  message : String
  item_index : Option Nat
  suggestion : Option String
  research_basis : Option String
deriving DecidableEq, Repr

structure RuleScore where
  rule : String
  max_points : Nat
  earned_points : Nat
  issues : List ValidationIssue
deriving DecidableEq, Repr

/- Bullet items form a tree; the mutual pair keeps every traversal
structurally recursive (an absent `children` array is `.nil`). -/
mutual
inductive BulletItem where
  | mk (text : String) (children : BulletList) (importance : Option Importance)

inductive BulletList where
  | nil
  | cons (head : BulletItem) (tail : BulletList)
end

def BulletItem.text : BulletItem → String
  | .mk t _ _ => t

def BulletItem.children : BulletItem → BulletList
  | .mk _ c _ => c

def BulletItem.importance : BulletItem → Option Importance
  | .mk _ _ i => i

def BulletList.ofList : List BulletItem → BulletList
  | [] => .nil
  | x :: rest => .cons x (BulletList.ofList rest)

structure BulletSection where
  title : String
  description : Option String
  intro : Option String
  items : List BulletItem
  context : Option Context

/-- The structured improvement list the sections-capable server returns
from `getTopImprovements`. -/
structure StructuredBulletList where
  title : String
  description : String
  intro : String
  items : List String
deriving DecidableEq, Repr

structure SectionScore where
  title : String
  description : Option String
  intro : Option String
  score : Nat
  grade : Grade
  item_count : Nat
  issues : List ValidationIssue
  context : Context

structure BulletAnalysis where
  title : Option String
  description : Option String
  intro : Option String
  overall_score : Nat
  grade : Grade
  scores : List RuleScore
  errors : List ValidationIssue
  warnings : List ValidationIssue
  suggestions : List ValidationIssue
  summary : String
  top_improvements : StructuredBulletList
  item_count : Nat
  max_depth : Nat
  avg_line_length : Nat
  context_fit : ContextFit
  context_feedback : Option String
  section_scores : Option (List SectionScore)

/-- The `validation` part of `BulletConfig` (`src/config.ts`); the
display settings never reach the engine. -/
structure ValidationConfig where
  strictMode : Bool
  enableResearchCitations : Bool

/-! ## Research citations (`src/constants.ts`) -/

def RC_LIST_LENGTH : String :=
  "Miller (1956), Cowan (2001): Working memory capacity 3-4 chunks; Columbia Business School: >3-4 key points decrease comprehension"

def RC_HIERARCHY : String :=
  "Kiger (1984), Zaphiris (2000), Nielsen: 2-level structures show fastest performance; >3 levels drops comprehension substantially"

def RC_LINE_LENGTH : String :=
  "Typography research: 45-75 chars optimal, 66 ideal; <40 causes excessive eye movements, >80 makes line tracking difficult"

def RC_SERIAL_POSITION : String :=
  "Ebbinghaus (1885), Murdock (1962): U-shaped retention curve; items at beginning and end recalled significantly better than middle"

def RC_STRUCTURE : String :=
  "Frazier et al. (1984): Parallel grammatical structure enables significantly faster reading through processing facilitation"

def RC_FIRST_WORDS : String :=
  "Nielsen eye-tracking: First 2 words are critical; readers fixate on initial words when deciding whether to read further"

def RC_FORMATTING : String :=
  "Usability research: Consistent punctuation/capitalization aids scanning; simple bullet symbols preferred"

/-- `TOTAL_POINTS` from `src/constants.ts`: the sum of the seven rules'
point allocations. -/
def TOTAL_POINTS : Nat := 20 + 15 + 15 + 15 + 20 + 10 + 5

/-! ## Tree helpers -/

/-- `calculateMaxDepth(list, d)` restricted to the nested levels: for a
list at depth `d`, the running maximum starts at `d` and each item with a
non-empty `children` array contributes the recursive depth of its
children at `d + 1`. -/
def maxDepthList : BulletList → Nat → Nat
  | .nil, d => d
  | .cons (.mk _ .nil _) rest, d => max d (maxDepthList rest d)
  | .cons (.mk _ (.cons c cs) _) rest, d =>
    max (maxDepthList (.cons c cs) (d + 1)) (maxDepthList rest d)

/-- The depth contributed by one top-level item (`calculateMaxDepth`
starts at depth 1). -/
def itemDepth : BulletItem → Nat
  | .mk _ .nil _ => 1
  | .mk _ (.cons c cs) _ => maxDepthList (.cons c cs) 2

/-- `calculateMaxDepth(items)` from the source. -/
def calculateMaxDepth (items : List BulletItem) : Nat :=
  items.foldl (fun m it => max m (itemDepth it)) 1

/-- `collectLengths` over a nested list: depth-first text lengths. -/
def lengthsList : BulletList → List Nat
  | .nil => []
  | .cons (.mk t cs _) rest => t.length :: (lengthsList cs ++ lengthsList rest)

/-- Depth-first text lengths of a top-level item list. -/
def collectAllLengths (items : List BulletItem) : List Nat :=
  items.flatMap (fun it =>
    match it with
    | .mk t cs _ => t.length :: lengthsList cs)

/-- `calculateAvgLineLength(items)` from the source. -/
def calculateAvgLineLength (items : List BulletItem) : Nat :=
  let lengths := collectAllLengths items
  if lengths.isEmpty then 0 else jsRound lengths.sum lengths.length

/-! ## Grammar pattern classifier -/

/-- `IMPERATIVE_VERBS` from the source (both server variants use the same
set). -/
def IMPERATIVE_VERBS : List String :=
  ["use", "create", "add", "remove", "update", "check", "ensure", "make",
   "set", "get", "run", "build", "test", "deploy", "configure", "install",
   "enable", "disable", "implement", "define", "write", "read", "delete",
   "move", "copy", "start", "stop", "open", "close", "send", "receive",
   "validate", "verify", "confirm", "select", "choose", "avoid", "include",
   "exclude", "maintain", "keep", "place", "put", "apply", "follow",
   "consider", "review", "analyze", "optimize", "limit", "maximize",
   "minimize", "target", "focus", "provide", "support", "handle",
   "process", "format", "parse", "convert", "transform", "organize",
   "structure", "break", "split", "merge", "combine", "group", "separate",
   "allow", "prevent", "require", "expect", "return", "call", "invoke",
   "execute", "perform", "complete", "finish", "begin", "continue",
   "repeat", "iterate", "loop", "track", "monitor", "log", "record",
   "store", "save", "load", "fetch", "retrieve", "display", "show",
   "hide", "render", "print", "export", "import"]

/-- The fixed set of non-gerund `-ing` nouns excluded by the
sections-capable classifier. -/
def NON_GERUNDS : List String :=
  ["king", "ring", "thing", "string", "spring", "swing", "bring", "sing",
   "bling", "fling", "sling", "sting", "wing", "cling", "wring",
   "anything", "everything", "nothing", "something"]

/-- The determiner/quantifier list signalling a noun phrase. -/
def DETERMINERS : List String :=
  ["the", "a", "an", "this", "that", "each", "every", "all", "some"]

/-- Does the lowercased full text contain one of the copular/auxiliary
substrings? -/
def hasAuxVerb (textLower : String) : Bool :=
  strContains textLower " is " || strContains textLower " are " ||
  strContains textLower " was " || strContains textLower " were " ||
  strContains textLower " has " || strContains textLower " have " ||
  strContains textLower " will " || strContains textLower " can "

/-- `detectGrammarPattern` of the sections-capable server (the variant
with the non-gerund exclusion set). -/
def detectGrammarPattern (text : String) : GrammarPattern :=
  match splitWsTrim text with
  | [] => .unknown
  | w :: _ =>
    let firstWord := stripToAlpha (jsToLower w)
    if firstWord ∈ IMPERATIVE_VERBS then .verbImperative
    else if strEndsWith firstWord "ing" && decide (4 < firstWord.length)
            && !(decide (firstWord ∈ NON_GERUNDS)) then .verbGerund
    else if firstWord ∈ DETERMINERS then .nounPhrase
    else if hasAuxVerb (jsToLower text) then .sentence
    else .unknown

/-- `detectGrammarPattern` of the flat-only server variant, which omits
the non-gerund exclusion set. -/
def detectGrammarPatternFlat (text : String) : GrammarPattern :=
  match splitWsTrim text with
  | [] => .unknown
  | w :: _ =>
    let firstWord := stripToAlpha (jsToLower w)
    if firstWord ∈ IMPERATIVE_VERBS then .verbImperative
    else if strEndsWith firstWord "ing" && decide (4 < firstWord.length) then .verbGerund
    else if firstWord ∈ DETERMINERS then .nounPhrase
    else if hasAuxVerb (jsToLower text) then .sentence
    else .unknown

/-! ## Rule validators -/

/-- Positional constructor for `ValidationIssue`. -/
def mkIssue (rule : String) (severity : Severity) (message : String)
    (item_index : Option Nat) (suggestion : Option String)
    (research_basis : Option String) : ValidationIssue :=
  { rule := rule, severity := severity, message := message,
    item_index := item_index, suggestion := suggestion,
    research_basis := research_basis }

/-- Positional constructor for `RuleScore`. -/
def mkScore (rule : String) (max_points earned_points : Nat)
    (issues : List ValidationIssue) : RuleScore :=
  { rule := rule, max_points := max_points, earned_points := earned_points,
    issues := issues }

/-- `validateListLength` (thresholds: min 3, optimal 5, max 7, hard max 9,
20 points). -/
def validateListLength (items : List BulletItem) : RuleScore :=
  let count := items.length
  if 9 < count then
    mkScore "LIST_LENGTH" 20 0
      [mkIssue "LIST_LENGTH" .error
        ("List has " ++ Nat.repr count ++ " items, exceeds maximum of 9")
        none
        (some ("Subdivide into " ++ Nat.repr ((count + 4) / 5) ++
          " categorized groups of ~5 items each"))
        (some RC_LIST_LENGTH)]
  else if 7 < count then
    mkScore "LIST_LENGTH" 20 (20 - 10)
      [mkIssue "LIST_LENGTH" .warning
        ("List has " ++ Nat.repr count ++ " items, exceeds recommended maximum of 7")
        none
        (some "Consider subdividing or removing less critical items")
        (some RC_LIST_LENGTH)]
  else if count < 3 then
    mkScore "LIST_LENGTH" 20 (20 - 5)
      [mkIssue "LIST_LENGTH" .suggestion
        ("List has only " ++ Nat.repr count ++ " item(s), below minimum of 3")
        none
        (some (if count = 1 then
            "Consider using prose instead of a single bullet"
          else "Consider adding more detail or using prose instead"))
        (some RC_LIST_LENGTH)]
  else
    mkScore "LIST_LENGTH" 20 20 []

/-- `validateHierarchy` (recommended max depth 2, hard max 3, 15 points). -/
def validateHierarchy (items : List BulletItem) : RuleScore :=
  let maxDepth := calculateMaxDepth items
  if 3 < maxDepth then
    mkScore "HIERARCHY" 15 0
      [mkIssue "HIERARCHY" .error
        ("Hierarchy depth of " ++ Nat.repr maxDepth ++ " exceeds usable maximum of 3")
        none
        (some "Flatten structure or use a table for complex relationships")
        (some RC_HIERARCHY)]
  else if 2 < maxDepth then
    mkScore "HIERARCHY" 15 (15 - 8)
      [mkIssue "HIERARCHY" .warning
        ("Hierarchy depth of " ++ Nat.repr maxDepth ++ " exceeds recommended maximum of 2")
        none
        (some "Consider flattening to 2 levels for better comprehension")
        (some RC_HIERARCHY)]
  else
    mkScore "HIERARCHY" 15 15 []

/-- The per-item check of `validateLineLength`: issue list and penalty
for one text at a given (encoded) index. -/
def llCheck (t : String) (index : Nat) : List ValidationIssue × Nat :=
  let length := t.length
  if 80 < length then
    ([mkIssue "LINE_LENGTH" .warning
        ("Item " ++ Nat.repr (index + 1) ++ " is too long (" ++ Nat.repr length ++
          " chars), exceeds readable maximum of 80")
        (some index)
        (some "Break into two bullets or trim to essential information")
        (some RC_LINE_LENGTH)], 5)
  else if 75 < length then
    ([mkIssue "LINE_LENGTH" .suggestion
        ("Item " ++ Nat.repr (index + 1) ++ " is slightly long (" ++ Nat.repr length ++
          " chars), above optimal of 75")
        (some index)
        (some "Consider trimming for easier scanning")
        (some RC_LINE_LENGTH)], 2)
  else if length < 40 ∧ 0 < length then
    ([mkIssue "LINE_LENGTH" .suggestion
        ("Item " ++ Nat.repr (index + 1) ++ " is short (" ++ Nat.repr length ++
          " chars), may appear sparse")
        (some index)
        (some "Consider adding detail or combining with a related point")
        (some RC_LINE_LENGTH)], 1)
  else ([], 0)

/-- `checkItem` of `validateLineLength` over a nested children list whose
indices start at `i` (a child of item `p` at child position `k` has
encoded index `p * 100 + k`, recursively). -/
def llList : BulletList → Nat → List ValidationIssue × Nat
  | .nil, _ => ([], 0)
  | .cons (.mk t cs _) rest, i =>
    let own := llCheck t i
    let kids := llList cs (i * 100)
    let siblings := llList rest (i + 1)
    (own.1 ++ kids.1 ++ siblings.1, own.2 + kids.2 + siblings.2)

/-- The top-level loop of `validateLineLength`. -/
def llTop : List BulletItem → Nat → List ValidationIssue × Nat
  | [], _ => ([], 0)
  | .mk t cs _ :: rest, i =>
    let own := llCheck t i
    let kids := llList cs (i * 100)
    let siblings := llTop rest (i + 1)
    (own.1 ++ kids.1 ++ siblings.1, own.2 + kids.2 + siblings.2)

/-- `validateLineLength` (comfortable min 40, optimal max 75, hard max
80, 15 points; penalties accumulate and the final score floors at 0). -/
def validateLineLength (items : List BulletItem) : RuleScore :=
  let res := llTop items 0
  mkScore "LINE_LENGTH" 15 (15 - res.2) res.1

/-- The warning issued for one high-importance item in the recall
valley. -/
def serialIssue (it : BulletItem) (index n : Nat) : ValidationIssue :=
  let shortText :=
    if 40 < it.text.length then takeChars it.text 40 ++ "..." else it.text
  mkIssue "SERIAL_POSITION" .warning
    ("High-importance item \"" ++ shortText ++ "\" is in recall valley (position " ++
      Nat.repr (index + 1) ++ ")")
    (some index)
    (some ("Move to position 1, 2, or " ++ Nat.repr n ++ " for better recall"))
    (some RC_SERIAL_POSITION)

/-- The suggestion-only issue emitted when a list longer than 4 carries
no importance tags. -/
def serialAdvice (n : Nat) : ValidationIssue :=
  mkIssue "SERIAL_POSITION" .suggestion
    ("Consider placing most critical information in positions 1, 2, or " ++ Nat.repr n)
    none
    (some ("Items in positions 3-" ++ Nat.repr (n - 1) ++
      " are in the \"recall valley\" with lower retention"))
    (some RC_SERIAL_POSITION)

/-- `validateSerialPosition` (primacy zone = first 2 positions, recency
zone = last position, 15 points, −5 per high-importance item in the
valley, floored at 0). -/
def validateSerialPosition (items : List BulletItem) : RuleScore :=
  if (items.any fun it => it.importance.isSome) = true ∧ 3 < items.length then
    let highs := items.enum.filter
      (fun p => decide (p.2.importance = some Importance.high))
    let valley := highs.filter
      (fun p => decide (¬ p.1 < 2 ∧ ¬ items.length - 1 ≤ p.1))
    mkScore "SERIAL_POSITION" 15 (15 - 5 * valley.length)
      (valley.map (fun p => serialIssue p.2 p.1 items.length))
  else if 4 < items.length then
    mkScore "SERIAL_POSITION" 15 15 [serialAdvice items.length]
  else
    mkScore "SERIAL_POSITION" 15 15 []

/-- The warning issued for one item breaking parallel structure. -/
def structureIssue (index : Nat) (pat dominant : GrammarPattern) : ValidationIssue :=
  mkIssue "STRUCTURE" .warning
    ("Item " ++ Nat.repr (index + 1) ++ " uses \"" ++ pat.str ++
      "\" pattern while most items use \"" ++ dominant.str ++ "\"")
    (some index)
    (some ("Rewrite to match the \"" ++ dominant.str ++ "\" pattern for consistency"))
    (some RC_STRUCTURE)

/-- `validateStructure` (20 points, −4 per item whose non-unknown pattern
differs from a non-unknown dominant pattern, floored at 0; lists with
fewer than 2 items return full points). -/
def validateStructure (items : List BulletItem) : RuleScore :=
  if items.length < 2 then
    mkScore "STRUCTURE" 20 20 []
  else
    let patterns := items.map (fun it => detectGrammarPattern it.text)
    match getMostCommon patterns with
    | none => mkScore "STRUCTURE" 20 20 []
    | some dominant =>
      let bad := patterns.enum.filter (fun p =>
        decide (p.2 ≠ GrammarPattern.unknown ∧ p.2 ≠ dominant ∧
          dominant ≠ GrammarPattern.unknown))
      mkScore "STRUCTURE" 20 (20 - 4 * bad.length)
        (bad.map (fun p => structureIssue p.1 p.2 dominant))

/-- The first-2-words scanning key of one item. -/
def firstTwoKey (it : BulletItem) : String :=
  jsToLower (joinSep " " ((splitWsTrim it.text).take 2))

/-- The warning issued for one group of items sharing a first-words key. -/
def firstWordsIssue (key : String) (indices : List Nat) : ValidationIssue :=
  mkIssue "FIRST_WORDS" .warning
    ("Items " ++ joinSep ", " (indices.map (fun i => Nat.repr (i + 1))) ++
      " start with similar words \"" ++ key ++ "\"")
    none
    (some "Vary the opening words to help readers quickly distinguish between items")
    (some RC_FIRST_WORDS)

/-- `validateFirstWords` (10 points, −3 per duplicate first-2-words
group, floored at 0; groups iterate in key insertion order). -/
def validateFirstWords (items : List BulletItem) : RuleScore :=
  let firstWords := items.map firstTwoKey
  let groups := (keyOrder firstWords).map (fun w =>
    (w, (firstWords.enum.filter (fun p => decide (p.2 = w))).map (fun p => p.1)))
  let dups := groups.filter (fun g => decide (1 < g.2.length))
  mkScore "FIRST_WORDS" 10 (10 - 3 * dups.length)
    (dups.map (fun g => firstWordsIssue g.1 g.2))

/-- Ending-punctuation class of one item (sentence / colon / none). -/
def endCategory (it : BulletItem) : String :=
  match (jsTrim it.text).data.getLast? with
  | none => "none"
  | some c =>
    if c = '.' ∨ c = '!' ∨ c = '?' then "sentence"
    else if c = ':' then "colon"
    else "none"

/-- Starting-capitalization class of one item.  On an empty trimmed text
the source would fault; validated items always have non-empty trimmed
text, and we pick the `upper` class for the unreachable case. -/
def capCategory (it : BulletItem) : String :=
  match (jsTrim it.text).data.head? with
  | none => "upper"
  | some c => if c = c.toUpper then "upper" else "lower"

/-- The suggestion issued for inconsistent ending punctuation. -/
def endIssue (n : Nat) (dominant : String) : ValidationIssue :=
  mkIssue "FORMATTING" .suggestion
    ("Inconsistent ending punctuation: " ++ Nat.repr n ++
      " items differ from the majority")
    none
    (some (if dominant = "sentence" then
        "Add periods to all items for consistency"
      else "Remove periods from all items for consistency"))
    (some RC_FORMATTING)

/-- The suggestion issued for inconsistent capitalization. -/
def capIssue (n : Nat) (dominant : String) : ValidationIssue :=
  mkIssue "FORMATTING" .suggestion
    ("Inconsistent capitalization: " ++ Nat.repr n ++
      " items differ from the majority")
    none
    (some (if dominant = "upper" then
        "Capitalize the first letter of all items"
      else "Use lowercase for the first letter of all items"))
    (some RC_FORMATTING)

/-- `validateFormatting` (5 points; −2 for a strict minority of deviant
ending-punctuation classes, −2 independently for capitalization; lists
with fewer than 2 items return full points). -/
def validateFormatting (items : List BulletItem) : RuleScore :=
  if items.length < 2 then
    mkScore "FORMATTING" 5 5 []
  else
    let endChars := items.map endCategory
    let endRes : List ValidationIssue × Nat :=
      match getMostCommon endChars with
      | none => ([], 0)
      | some dominant =>
        let n := (endChars.filter (fun e => decide (e ≠ dominant))).length
        if 0 < n ∧ n < endChars.length then ([endIssue n dominant], 2) else ([], 0)
    let caps := items.map capCategory
    let capRes : List ValidationIssue × Nat :=
      match getMostCommon caps with
      | none => ([], 0)
      | some dominant =>
        let n := (caps.filter (fun c => decide (c ≠ dominant))).length
        if 0 < n ∧ n < caps.length then ([capIssue n dominant], 2) else ([], 0)
    mkScore "FORMATTING" 5 (5 - (endRes.2 + capRes.2)) (endRes.1 ++ capRes.1)

/-- The fixed validator battery, in source order. -/
def runValidators (items : List BulletItem) : List RuleScore :=
  [validateListLength items, validateHierarchy items, validateLineLength items,
   validateSerialPosition items, validateStructure items,
   validateFirstWords items, validateFormatting items]

/-! ## Aggregation helpers -/

/-- `calculateGrade` (`GRADES`: A 90, B 80, C 70, D 60). -/
def calculateGrade (score : Nat) : Grade :=
  if 90 ≤ score then .A
  else if 80 ≤ score then .B
  else if 70 ≤ score then .C
  else if 60 ≤ score then .D
  else .F

/-- `generateSummary` for flat analyses. -/
def generateSummary (score errorCount warningCount : Nat) : String :=
  if 90 ≤ score ∧ errorCount = 0 then
    "Excellent bullet list following evidence-based best practices."
  else if 80 ≤ score ∧ errorCount = 0 then
    "Good bullet list with minor improvements possible."
  else if 70 ≤ score then
    "Adequate bullet list. " ++ Nat.repr warningCount ++ " issue(s) may impact effectiveness."
  else if 0 < errorCount then
    "Bullet list has " ++ Nat.repr errorCount ++ " critical issue(s) that should be addressed."
  else
    "Bullet list needs improvement. Review " ++ Nat.repr warningCount ++
      " warning(s) for better results."

/-- `getImprovementDescription`. -/
def getImprovementDescription (score itemCount : Nat) : String :=
  if itemCount = 0 then "Your bullet list follows best practices."
  else if 90 ≤ score then "Minor tweaks to make your bullet list even better."
  else if 70 ≤ score then "A few adjustments would improve readability and recall."
  else "These changes will significantly improve your bullet list."

/-- The comparator rank of `getTopImprovements` (error 0, warning 1,
suggestion 2). -/
def severityRank : Severity → Nat
  | .error => 0
  | .warning => 1
  | .suggestion => 2

/-- JavaScript truthiness of an issue's `suggestion` field. -/
def truthySug (i : ValidationIssue) : Bool :=
  match i.suggestion with
  | some s => decide (s ≠ "")
  | none => false

/-- The stable sort by severity rank used in `getTopImprovements`.
`Array.prototype.sort` is stable, and a stable sort on a 3-valued key is
exactly the concatenation of the three key buckets in order. -/
def sortBySeverity (l : List ValidationIssue) : List ValidationIssue :=
  l.filter (fun i => decide (severityRank i.severity = 0)) ++
  l.filter (fun i => decide (severityRank i.severity = 1)) ++
  l.filter (fun i => decide (severityRank i.severity = 2))

/-- The dedupe-and-collect loop of `getTopImprovements`: walk the sorted
issues, pushing each new truthy suggestion text, stopping once three have
been collected (`acc` holds the collected texts in reverse). -/
def collectUnique : List ValidationIssue → List String → List String
  | [], acc => acc.reverse
  | i :: rest, acc =>
    let acc2 := match i.suggestion with
      | some s => if s ≠ "" ∧ s ∉ acc then s :: acc else acc
      | none => acc
    if 3 ≤ acc2.length then acc2.reverse else collectUnique rest acc2

/-- `getTopImprovements` of the sections-capable server (returns a
structured list). -/
def getTopImprovements (issues : List ValidationIssue) (score : Nat) :
    StructuredBulletList :=
  let unique := collectUnique (sortBySeverity (issues.filter truthySug)) []
  { title := "Suggested Improvements",
    description := getImprovementDescription score unique.length,
    intro := if 0 < unique.length then "Consider the following changes:" else "",
    items := unique }

/-- `getTopImprovements` of the flat-only server variant (returns the
bare string list). -/
def getTopImprovementsFlat (issues : List ValidationIssue) : List String :=
  collectUnique (sortBySeverity (issues.filter truthySug)) []

/-- `analyzeContext` of the sections-capable server. -/
def analyzeContext (items : List BulletItem) (context : Context) :
    ContextFit × Option String :=
  match context with
  | .presentation =>
    (.poor, some "3M research shows presentations are 43% more persuasive with visuals instead of bullets. Consider using graphics with narration.")
  | .reference =>
    if calculateMaxDepth items = 1 ∧ 5 < items.length then
      (.good, some "For reference materials, consider using hierarchy (sub-bullets) to group related items for faster lookup.")
    else
      (.excellent, some "Well-structured for reference use. Ensure consistent formatting for quick scanning.")
  | .document =>
    let patterns := items.map (fun it => detectGrammarPattern it.text)
    let uniquePatterns :=
      (keyOrder (patterns.filter (fun p => decide (p ≠ GrammarPattern.unknown)))).length
    if 2 < uniquePatterns then
      (.good, some "Content appears heterogeneous. Bullets work best with related, similar items. Consider grouping by category.")
    else (.excellent, none)

/-- Strict-mode promotion of one warning. -/
def retagError (w : ValidationIssue) : ValidationIssue :=
  { w with severity := .error }

/-- Citation suppression of one issue. -/
def stripCitation (i : ValidationIssue) : ValidationIssue :=
  { i with research_basis := none }

/-- Citation suppression over a score list. -/
def stripScores (scores : List RuleScore) : List RuleScore :=
  scores.map (fun s => { s with issues := s.issues.map stripCitation })

/-! ## Flat analysis -/

/-- `analyzeFlat` of the sections-capable server. -/
def analyzeFlat (cfg : ValidationConfig) (items : List BulletItem)
    (context : Context) (title description intro : Option String) :
    BulletAnalysis :=
  let scores := runValidators items
  let overallScore := jsRound (((scores.map (fun s => s.earned_points)).sum) * 100) TOTAL_POINTS
  let grade := calculateGrade overallScore
  let allIssues := scores.flatMap (fun s => s.issues)
  let errors0 := allIssues.filter (fun i => decide (i.severity = Severity.error))
  let warnings0 := allIssues.filter (fun i => decide (i.severity = Severity.warning))
  let suggestions := allIssues.filter (fun i => decide (i.severity = Severity.suggestion))
  let errors := if cfg.strictMode then errors0 ++ warnings0.map retagError else errors0
  let warnings := if cfg.strictMode then [] else warnings0
  let contextAnalysis := analyzeContext items context
  { title := title, description := description, intro := intro,
    overall_score := overallScore,
    grade := grade,
    scores := if cfg.enableResearchCitations then scores else stripScores scores,
    errors := errors,
    warnings := warnings,
    suggestions := suggestions,
    summary := generateSummary overallScore errors.length warnings.length,
    top_improvements := getTopImprovements allIssues overallScore,
    item_count := items.length,
    max_depth := calculateMaxDepth items,
    avg_line_length := calculateAvgLineLength items,
    context_fit := contextAnalysis.1,
    context_feedback := contextAnalysis.2,
    section_scores := none }

/-! ## Sectioned analysis -/

/-- Prefix every issue message of one score with the section title. -/
def tagRuleScore (sectionTitle : String) (s : RuleScore) : RuleScore :=
  { s with issues := s.issues.map (fun i =>
      { i with message := "[" ++ sectionTitle ++ "] " ++ i.message }) }

/-- The per-section validator outputs with section-tagged messages. -/
def sectionRuleScores (sec : BulletSection) : List RuleScore :=
  (runValidators sec.items).map (tagRuleScore sec.title)

/-- A section's own 0-100 score. -/
def sectionScore100 (sec : BulletSection) : Nat :=
  jsRound ((((runValidators sec.items).map (fun s => s.earned_points)).sum) * 100) TOTAL_POINTS

/-- The `SectionScore` record built for one section. -/
def sectionScoreOf (globalContext : Context) (sec : BulletSection) : SectionScore :=
  let sScore := sectionScore100 sec
  { title := sec.title, description := sec.description, intro := sec.intro,
    score := sScore,
    grade := calculateGrade sScore,
    item_count := sec.items.length,
    issues := (sectionRuleScores sec).flatMap (fun s => s.issues),
    context := sec.context.getD globalContext }

/-- `aggregateRuleScores`: group the concatenated per-section scores by
rule identifier (keys in insertion order, groups in scan order), and for
each rule average the max and earned points and concatenate the issues. -/
def aggregateRuleScores (allScores : List RuleScore) : List RuleScore :=
  (keyOrder (allScores.map (fun s => s.rule))).map (fun r =>
    let group := allScores.filter (fun s => decide (s.rule = r))
    mkScore r
      (jsRound ((group.map (fun s => s.max_points)).sum) group.length)
      (jsRound ((group.map (fun s => s.earned_points)).sum) group.length)
      (group.flatMap (fun s => s.issues)))

/-- `generateSectionedSummary` (best/worst section via `reduce`). -/
def generateSectionedSummary (overallScore sectionCount : Nat)
    (sectionScores : List SectionScore) : String :=
  match sectionScores with
  | [] => ""
  | a :: rest =>
    let best := rest.foldl (fun b s => if b.score < s.score then s else b) a
    let worst := rest.foldl (fun w s => if s.score < w.score then s else w) a
    if 90 ≤ overallScore then
      "Excellent structured summary across " ++ Nat.repr sectionCount ++
        " sections. All sections follow evidence-based best practices."
    else if 80 ≤ overallScore then
      "Good structured summary across " ++ Nat.repr sectionCount ++
        " sections. Best: \"" ++ best.title ++ "\" (" ++ Nat.repr best.score ++
        "), needs work: \"" ++ worst.title ++ "\" (" ++ Nat.repr worst.score ++ ")."
    else
      "Structured summary with " ++ Nat.repr sectionCount ++
        " sections needs improvement. Focus on \"" ++ worst.title ++
        "\" (score: " ++ Nat.repr worst.score ++ ")."

/-- `analyzeSections` of the sections-capable server. -/
def analyzeSections (cfg : ValidationConfig) (sections : List BulletSection)
    (globalContext : Context) (title description intro : Option String) :
    BulletAnalysis :=
  let sectionScores := sections.map (sectionScoreOf globalContext)
  let allRuleScores := sections.flatMap sectionRuleScores
  let errors0 := sections.flatMap (fun sec =>
    ((sectionScoreOf globalContext sec).issues).filter
      (fun i => decide (i.severity = Severity.error)))
  let warnings0 := sections.flatMap (fun sec =>
    ((sectionScoreOf globalContext sec).issues).filter
      (fun i => decide (i.severity = Severity.warning)))
  let suggestions := sections.flatMap (fun sec =>
    ((sectionScoreOf globalContext sec).issues).filter
      (fun i => decide (i.severity = Severity.suggestion)))
  let errors := if cfg.strictMode then errors0 ++ warnings0.map retagError else errors0
  let warnings := if cfg.strictMode then [] else warnings0
  let overallScore := jsRound ((sectionScores.map (fun s => s.score)).sum) sectionScores.length
  let grade := calculateGrade overallScore
  let aggregatedScores := aggregateRuleScores allRuleScores
  let contextAnalysis := analyzeContext (sections.flatMap (fun s => s.items)) globalContext
  let allLengths := sections.flatMap (fun s => collectAllLengths s.items)
  { title := title, description := description, intro := intro,
    overall_score := overallScore,
    grade := grade,
    scores := if cfg.enableResearchCitations then aggregatedScores
      else stripScores aggregatedScores,
    errors := errors,
    warnings := warnings,
    suggestions := suggestions,
    summary := generateSectionedSummary overallScore sections.length sectionScores,
    top_improvements := getTopImprovements (errors ++ warnings ++ suggestions) overallScore,
    item_count := (sections.map (fun s => s.items.length)).sum,
    max_depth := sections.foldl (fun m s => max m (calculateMaxDepth s.items)) 1,
    avg_line_length := if allLengths.isEmpty then 0
      else jsRound allLengths.sum allLengths.length,
    context_fit := contextAnalysis.1,
    context_feedback := contextAnalysis.2,
    section_scores := some sectionScores }

/-! ## Raw input validation (`validateInput` / `validateItemsArray`) -/

/- A raw (pre-validation) bullet item as received over the wire.  A
`none` text covers both a missing `text` property and a non-string one
(either fails `typeof item.text !== "string"`); the "must be an object"
check of the source cannot fail in this typed model. -/
inductive RawItem where
  | mk (text : Option String) (children : List RawItem)

/-- Does a raw item pass the per-item text check of
`validateItemsArray`?  (The source never looks at `children`.) -/
def itemTextOk : RawItem → Bool
  | .mk (some s) _ => decide ((jsTrim s).length ≠ 0)
  | .mk none _ => false

/-- The indexed loop of `validateItemsArray`. -/
def validateItemsArrayFrom : List RawItem → String → Nat → Except String Unit
  | [], _, _ => Except.ok ()
  | it :: rest, location, i =>
    if itemTextOk it then validateItemsArrayFrom rest location (i + 1)
    else Except.error ("Item at index " ++ Nat.repr i ++ " in " ++ location ++
      " must have non-empty text property")

/-- `validateItemsArray(items, location)` from the source. -/
def validateItemsArray (items : List RawItem) (location : String) :
    Except String Unit :=
  validateItemsArrayFrom items location 0

/-- The flat-mode item checks of `validateInput` (non-empty `items`
array, then the per-item loop with location `"items"`). -/
def validateFlatItems (items : List RawItem) : Except String Unit :=
  if items.length = 0 then Except.error "Items array cannot be empty"
  else validateItemsArray items "items"

/-! ## Spec-side comparison definitions

These restate algorithms in the wording of the specification, for the
refinement-style claims that compare the code against the spec text. -/

/-- The seven rule identifiers in validator order. -/
def RULE_NAMES : List String :=
  ["LIST_LENGTH", "HIERARCHY", "LINE_LENGTH", "SERIAL_POSITION",
   "STRUCTURE", "FIRST_WORDS", "FORMATTING"]

/-- The validator belonging to a rule identifier. -/
def ruleByName (r : String) (items : List BulletItem) : RuleScore :=
  if r = "LIST_LENGTH" then validateListLength items
  else if r = "HIERARCHY" then validateHierarchy items
  else if r = "LINE_LENGTH" then validateLineLength items
  else if r = "SERIAL_POSITION" then validateSerialPosition items
  else if r = "STRUCTURE" then validateStructure items
  else if r = "FIRST_WORDS" then validateFirstWords items
  else validateFormatting items

/-- The section-tagged score of rule `r` for one section. -/
def taggedRuleByName (r : String) (sec : BulletSection) : RuleScore :=
  tagRuleScore sec.title (ruleByName r sec.items)

/-- The spec's description of cross-section rule aggregation: for each
rule identifier, the merged max and earned points are the rounded mean of
that rule's per-section values, and the issues are the concatenation of
that rule's (already section-tagged) issues across sections. -/
def spec_mergedScores (sections : List BulletSection) : List RuleScore :=
  RULE_NAMES.map (fun r =>
    mkScore r
      (jsRound ((sections.map (fun sec => (taggedRuleByName r sec).max_points)).sum)
        sections.length)
      (jsRound ((sections.map (fun sec => (taggedRuleByName r sec).earned_points)).sum)
        sections.length)
      (sections.flatMap (fun sec => (taggedRuleByName r sec).issues)))

/-- The classifier exactly as the spec states it: first word lowercased
with non-letters stripped; imperative lexicon, then `-ing` suffix with
length over 4 excluding the fixed non-gerund nouns, then the
determiner list, then the auxiliary-substring scan, else unknown. -/
def spec_classify (text : String) : GrammarPattern :=
  match splitWsTrim text with
  | [] => .unknown
  | w :: _ =>
    let firstWord := stripToAlpha (jsToLower w)
    if firstWord ∈ IMPERATIVE_VERBS then .verbImperative
    else if strEndsWith firstWord "ing" && decide (4 < firstWord.length)
            && !(decide (firstWord ∈ NON_GERUNDS)) then .verbGerund
    else if firstWord ∈ DETERMINERS then .nounPhrase
    else if hasAuxVerb (jsToLower text) then .sentence
    else .unknown

/-- The same cascade without the non-gerund exclusion, matching what the
flat-only variant actually implements. -/
def spec_classifyNoExclusion (text : String) : GrammarPattern :=
  match splitWsTrim text with
  | [] => .unknown
  | w :: _ =>
    let firstWord := stripToAlpha (jsToLower w)
    if firstWord ∈ IMPERATIVE_VERBS then .verbImperative
    else if strEndsWith firstWord "ing" && decide (4 < firstWord.length) then .verbGerund
    else if firstWord ∈ DETERMINERS then .nounPhrase
    else if hasAuxVerb (jsToLower text) then .sentence
    else .unknown

/-- The spec's top-improvements pipeline: keep issues carrying a
suggestion, stable-sort by severity rank, deduplicate by exact suggestion
text keeping first occurrences, take the first 3. -/
def spec_topImprovements (issues : List ValidationIssue) : List String :=
  (keyOrder ((sortBySeverity (issues.filter truthySug)).filterMap
    (fun i => i.suggestion))).take 3

/-- The number of high-importance items in the recall valley (index
neither below 2 nor at or beyond `length - 1`). -/
def highValleyCount (items : List BulletItem) : Nat :=
  ((items.enum.filter (fun p => decide (p.2.importance = some Importance.high))).filter
    (fun p => decide (¬ p.1 < 2 ∧ ¬ items.length - 1 ≤ p.1))).length

/-! ## Concrete example inputs -/

/-- A childless, untagged bullet item. -/
def bi (t : String) : BulletItem := .mk t .nil none

/-- A childless high-importance bullet item. -/
def biHigh (t : String) : BulletItem := .mk t .nil (some .high)

/-- Five items with one high-importance item at 0-based index 2. -/
def ex5High : List BulletItem :=
  [bi "Alpha point", bi "Beta point", biHigh "Gamma critical point",
   bi "Delta point", bi "Epsilon point"]

/-- Five items with no importance tags. -/
def ex5None : List BulletItem :=
  [bi "Alpha point", bi "Beta point", bi "Gamma point",
   bi "Delta point", bi "Epsilon point"]

/-- Three items sharing the first-2-words key, producing one warning and
no errors. -/
def exStrict : List BulletItem :=
  [bi "Use cats one", bi "Use cats two", bi "Use cats three"]

/-- A raw flat input whose only flaw is a nested child with
whitespace-only text. -/
def exChildBad : List RawItem :=
  [RawItem.mk (some "A perfectly valid parent item") [RawItem.mk (some " ") []]]

/-- The deduplication key of one issue in `getTopImprovements`: its
suggestion text when that is truthy, else nothing. -/
def sugText (i : ValidationIssue) : Option String :=
  match i.suggestion with
  | some s => if s = "" then none else some s
  | none => none

/-- The truthy suggestion texts of a list of issues, in order. -/
def sugTexts (l : List ValidationIssue) : List String :=
  l.filterMap sugText

/-- Forget the children of a raw item (used to state that validation
never inspects them). -/
def dropChildren : RawItem → RawItem
  | .mk t _ => .mk t []

/-! ## Helper lemmas -/

theorem jsRound_one (x : Nat) : jsRound x 1 = x := by
  unfold jsRound
  omega

theorem jsRound_hundred (e : Nat) : jsRound (e * 100) 100 = e := by
  unfold jsRound
  omega

theorem jsRound_le_jsRound {a b : Nat} (n : Nat) (h : a ≤ b) :
    jsRound a n ≤ jsRound b n := by
  unfold jsRound
  exact Nat.div_le_div_right (by omega)

theorem validateListLength_fields (items : List BulletItem) :
    (validateListLength items).rule = "LIST_LENGTH" ∧
    (validateListLength items).max_points = 20 ∧
    (validateListLength items).earned_points ≤ 20 := by
  simp only [validateListLength, mkScore]
  split_ifs <;>
    exact ⟨rfl, rfl, by first | exact Nat.zero_le _ | exact Nat.sub_le _ _ | exact Nat.le_refl _⟩

theorem validateHierarchy_fields (items : List BulletItem) :
    (validateHierarchy items).rule = "HIERARCHY" ∧
    (validateHierarchy items).max_points = 15 ∧
    (validateHierarchy items).earned_points ≤ 15 := by
  simp only [validateHierarchy, mkScore]
  split_ifs <;>
    exact ⟨rfl, rfl, by first | exact Nat.zero_le _ | exact Nat.sub_le _ _ | exact Nat.le_refl _⟩

theorem validateLineLength_fields (items : List BulletItem) :
    (validateLineLength items).rule = "LINE_LENGTH" ∧
    (validateLineLength items).max_points = 15 ∧
    (validateLineLength items).earned_points ≤ 15 := by
  exact ⟨rfl, rfl, Nat.sub_le _ _⟩

theorem validateSerialPosition_fields (items : List BulletItem) :
    (validateSerialPosition items).rule = "SERIAL_POSITION" ∧
    (validateSerialPosition items).max_points = 15 ∧
    (validateSerialPosition items).earned_points ≤ 15 := by
  simp only [validateSerialPosition, mkScore]
  split_ifs <;> exact ⟨rfl, rfl, by first | exact Nat.sub_le _ _ | exact le_refl _⟩

theorem validateStructure_fields (items : List BulletItem) :
    (validateStructure items).rule = "STRUCTURE" ∧
    (validateStructure items).max_points = 20 ∧
    (validateStructure items).earned_points ≤ 20 := by
  simp only [validateStructure, mkScore]
  split_ifs
  · exact ⟨rfl, rfl, le_refl _⟩
  · cases hgm : getMostCommon (items.map (fun it => detectGrammarPattern it.text)) with
    | none => exact ⟨rfl, rfl, le_refl _⟩
    | some dominant => exact ⟨rfl, rfl, Nat.sub_le _ _⟩

theorem validateFirstWords_fields (items : List BulletItem) :
    (validateFirstWords items).rule = "FIRST_WORDS" ∧
    (validateFirstWords items).max_points = 10 ∧
    (validateFirstWords items).earned_points ≤ 10 := by
  exact ⟨rfl, rfl, Nat.sub_le _ _⟩

theorem validateFormatting_fields (items : List BulletItem) :
    (validateFormatting items).rule = "FORMATTING" ∧
    (validateFormatting items).max_points = 5 ∧
    (validateFormatting items).earned_points ≤ 5 := by
  simp only [validateFormatting, mkScore]
  split_ifs
  · exact ⟨rfl, rfl, le_refl _⟩
  · exact ⟨rfl, rfl, Nat.sub_le _ _⟩

theorem runValidators_maxSum (items : List BulletItem) :
    ((runValidators items).map (fun s => s.max_points)).sum = 100 := by
  simp only [runValidators, List.map_cons, List.map_nil, List.sum_cons,
    List.sum_nil,
    (validateListLength_fields items).2.1, (validateHierarchy_fields items).2.1,
    (validateLineLength_fields items).2.1, (validateSerialPosition_fields items).2.1,
    (validateStructure_fields items).2.1, (validateFirstWords_fields items).2.1,
    (validateFormatting_fields items).2.1]
  omega

theorem mem_runValidators_bound (items : List BulletItem) :
    ∀ s ∈ runValidators items, s.earned_points ≤ s.max_points := by
  intro s hs
  simp only [runValidators, List.mem_cons, List.not_mem_nil, or_false] at hs
  rcases hs with h | h | h | h | h | h | h <;> subst h
  · exact le_trans (validateListLength_fields items).2.2
      (le_of_eq (validateListLength_fields items).2.1.symm)
  · exact le_trans (validateHierarchy_fields items).2.2
      (le_of_eq (validateHierarchy_fields items).2.1.symm)
  · exact le_trans (validateLineLength_fields items).2.2
      (le_of_eq (validateLineLength_fields items).2.1.symm)
  · exact le_trans (validateSerialPosition_fields items).2.2
      (le_of_eq (validateSerialPosition_fields items).2.1.symm)
  · exact le_trans (validateStructure_fields items).2.2
      (le_of_eq (validateStructure_fields items).2.1.symm)
  · exact le_trans (validateFirstWords_fields items).2.2
      (le_of_eq (validateFirstWords_fields items).2.1.symm)
  · exact le_trans (validateFormatting_fields items).2.2
      (le_of_eq (validateFormatting_fields items).2.1.symm)

theorem runValidators_earnedSum_le (items : List BulletItem) :
    ((runValidators items).map (fun s => s.earned_points)).sum ≤ 100 := by
  calc ((runValidators items).map (fun s => s.earned_points)).sum
      ≤ ((runValidators items).map (fun s => s.max_points)).sum :=
        List.sum_le_sum (mem_runValidators_bound items)
    _ = 100 := runValidators_maxSum items

theorem analyzeFlat_overall_eq (cfg : ValidationConfig) (items : List BulletItem)
    (ctx : Context) (t d i : Option String) :
    (analyzeFlat cfg items ctx t d i).overall_score =
      ((runValidators items).map (fun s => s.earned_points)).sum := by
  have h : (analyzeFlat cfg items ctx t d i).overall_score =
      jsRound (((runValidators items).map (fun s => s.earned_points)).sum * 100)
        TOTAL_POINTS := rfl
  rw [h, show TOTAL_POINTS = 100 from rfl, jsRound_hundred]

theorem calculateGrade_iff (s : Nat) :
    (calculateGrade s = Grade.A ↔ 90 ≤ s) ∧
    (calculateGrade s = Grade.B ↔ 80 ≤ s ∧ s < 90) ∧
    (calculateGrade s = Grade.C ↔ 70 ≤ s ∧ s < 80) ∧
    (calculateGrade s = Grade.D ↔ 60 ≤ s ∧ s < 70) ∧
    (calculateGrade s = Grade.F ↔ s < 60) := by
  unfold calculateGrade
  split_ifs <;> simp_all <;> omega

/-! ## Claim theorems -/

/-- C1: for every flat-mode input, the overall score is the rounding of
the seven rules' earned-point sum over their max-point sum (which is the
fixed 100 = 20+15+15+15+20+10+5) times 100, it lies between 0 and 100,
and the grade follows the fixed thresholds A≥90, B≥80, C≥70, D≥60,
else F. -/
theorem c1_overall_score_grade (cfg : ValidationConfig) (items : List BulletItem)
    (ctx : Context) (t d i : Option String) :
    ((runValidators items).map (fun s => s.max_points)).sum = 100 ∧
    (analyzeFlat cfg items ctx t d i).overall_score =
      jsRound (((runValidators items).map (fun s => s.earned_points)).sum * 100)
        (((runValidators items).map (fun s => s.max_points)).sum) ∧
    (analyzeFlat cfg items ctx t d i).overall_score ≤ 100 ∧
    ((analyzeFlat cfg items ctx t d i).grade = Grade.A ↔
      90 ≤ (analyzeFlat cfg items ctx t d i).overall_score) ∧
    ((analyzeFlat cfg items ctx t d i).grade = Grade.B ↔
      80 ≤ (analyzeFlat cfg items ctx t d i).overall_score ∧
      (analyzeFlat cfg items ctx t d i).overall_score < 90) ∧
    ((analyzeFlat cfg items ctx t d i).grade = Grade.C ↔
      70 ≤ (analyzeFlat cfg items ctx t d i).overall_score ∧
      (analyzeFlat cfg items ctx t d i).overall_score < 80) ∧
    ((analyzeFlat cfg items ctx t d i).grade = Grade.D ↔
      60 ≤ (analyzeFlat cfg items ctx t d i).overall_score ∧
      (analyzeFlat cfg items ctx t d i).overall_score < 70) ∧
    ((analyzeFlat cfg items ctx t d i).grade = Grade.F ↔
      (analyzeFlat cfg items ctx t d i).overall_score < 60) := by
  have hmax := runValidators_maxSum items
  have hgr : (analyzeFlat cfg items ctx t d i).grade =
      calculateGrade (analyzeFlat cfg items ctx t d i).overall_score := rfl
  have hiff := calculateGrade_iff (analyzeFlat cfg items ctx t d i).overall_score
  refine ⟨hmax, ?_, ?_, ?_, ?_, ?_, ?_, ?_⟩
  · rw [hmax]
    rfl
  · rw [analyzeFlat_overall_eq]
    exact runValidators_earnedSum_le items
  · rw [hgr]; exact hiff.1
  · rw [hgr]; exact hiff.2.1
  · rw [hgr]; exact hiff.2.2.1
  · rw [hgr]; exact hiff.2.2.2.1
  · rw [hgr]; exact hiff.2.2.2.2

theorem tagRuleScore_fields (t : String) (s : RuleScore) :
    (tagRuleScore t s).rule = s.rule ∧
    (tagRuleScore t s).max_points = s.max_points ∧
    (tagRuleScore t s).earned_points = s.earned_points :=
  ⟨rfl, rfl, rfl⟩

theorem mem_sectionRuleScores_bound (sections : List BulletSection) :
    ∀ s ∈ sections.flatMap sectionRuleScores, s.earned_points ≤ s.max_points := by
  intro s hs
  rw [List.mem_flatMap] at hs
  obtain ⟨sec, _, hmem⟩ := hs
  unfold sectionRuleScores at hmem
  rw [List.mem_map] at hmem
  obtain ⟨y, hy, rfl⟩ := hmem
  rw [(tagRuleScore_fields sec.title y).2.1, (tagRuleScore_fields sec.title y).2.2]
  exact mem_runValidators_bound sec.items y hy

theorem aggregateRuleScores_bound (allScores : List RuleScore)
    (h : ∀ s ∈ allScores, s.earned_points ≤ s.max_points) :
    ∀ s ∈ aggregateRuleScores allScores, s.earned_points ≤ s.max_points := by
  intro s hs
  unfold aggregateRuleScores at hs
  rw [List.mem_map] at hs
  obtain ⟨r, _, rfl⟩ := hs
  unfold mkScore
  exact jsRound_le_jsRound _
    (List.sum_le_sum (fun x hx => h x (List.mem_of_mem_filter hx)))

/-- C2: every one of the seven validators returns earned points between 0
and its max points (0 ≤ is inherent to the `Nat` embedding, matching the
floor-at-zero in the source), and the same bounds hold for every merged
rule score produced by the sectioned aggregation. -/
theorem c2_earned_within_bounds (items : List BulletItem)
    (sections : List BulletSection) :
    ((runValidators items).all
      (fun s => decide (s.earned_points ≤ s.max_points))) = true ∧
    ((aggregateRuleScores (sections.flatMap sectionRuleScores)).all
      (fun s => decide (s.earned_points ≤ s.max_points))) = true := by
  constructor
  · rw [List.all_eq_true]
    intro s hs
    exact decide_eq_true (mem_runValidators_bound items s hs)
  · rw [List.all_eq_true]
    intro s hs
    exact decide_eq_true
      (aggregateRuleScores_bound _ (mem_sectionRuleScores_bound sections) s hs)

/-- C3: with strict mode on, both analysis modes empty the warning bucket
and their error bucket is exactly the non-strict error bucket followed by
the non-strict warnings re-tagged with severity error (so the issue sets
agree up to the severity rewrite). -/
theorem c3_strict_promotes_warnings (cite : Bool) (items : List BulletItem)
    (sections : List BulletSection) (gctx : Context) (t d i : Option String) :
    (analyzeFlat ⟨true, cite⟩ items gctx t d i).warnings = [] ∧
    (analyzeFlat ⟨true, cite⟩ items gctx t d i).errors =
      (analyzeFlat ⟨false, cite⟩ items gctx t d i).errors ++
      ((analyzeFlat ⟨false, cite⟩ items gctx t d i).warnings).map retagError ∧
    (analyzeSections ⟨true, cite⟩ sections gctx t d i).warnings = [] ∧
    (analyzeSections ⟨true, cite⟩ sections gctx t d i).errors =
      (analyzeSections ⟨false, cite⟩ sections gctx t d i).errors ++
      ((analyzeSections ⟨false, cite⟩ sections gctx t d i).warnings).map retagError :=
  ⟨rfl, rfl, rfl, rfl⟩

/-- C4: a sectioned input with exactly one section scores the same
overall as the flat analysis of that section's items (the rounded mean of
one section score is that score). -/
theorem c4_single_section_matches_flat (cfg : ValidationConfig)
    (sec : BulletSection) (gctx : Context) (t d i : Option String) :
    (analyzeSections cfg [sec] gctx t d i).overall_score =
      (analyzeFlat cfg sec.items gctx t d i).overall_score := by
  show jsRound (sectionScore100 sec + 0) 1 = _
  rw [Nat.add_zero, jsRound_one]
  rfl

theorem validateItemsArrayFrom_ok_iff (items : List RawItem) (loc : String) :
    ∀ k, (validateItemsArrayFrom items loc k = Except.ok () ↔
      ∀ it ∈ items, itemTextOk it = true) := by
  induction items with
  | nil => intro k; simp [validateItemsArrayFrom]
  | cons it rest ih =>
    intro k
    unfold validateItemsArrayFrom
    by_cases h : itemTextOk it = true
    · rw [if_pos h]
      rw [ih (k + 1)]
      simp [h]
    · rw [if_neg h]
      simp [h]

theorem itemTextOk_dropChildren (it : RawItem) :
    itemTextOk (dropChildren it) = itemTextOk it := by
  cases it with
  | mk t cs => cases t <;> rfl

theorem validateItemsArrayFrom_dropChildren (items : List RawItem)
    (loc : String) : ∀ k,
    validateItemsArrayFrom (items.map dropChildren) loc k =
      validateItemsArrayFrom items loc k := by
  induction items with
  | nil => intro k; rfl
  | cons it rest ih =>
    intro k
    unfold validateItemsArrayFrom
    rw [List.map_cons]
    show (if itemTextOk (dropChildren it) then _ else _) = _
    rw [itemTextOk_dropChildren]
    by_cases h : itemTextOk it = true
    · rw [if_pos h, if_pos h, ih (k + 1)]
    · rw [if_neg h, if_neg h]

/-- C6 counterexample: a flat input whose nested child has
whitespace-only text (so the child itself fails the per-item text check)
still passes input validation — nested children are never validated, so
the claim that empty text "anywhere in the input tree" fails validation
is false. -/
theorem c6_counterexample :
    validateFlatItems exChildBad = Except.ok () ∧
    itemTextOk (RawItem.mk (some " ") []) = false :=
  ⟨rfl, rfl⟩

/-- C6 (amended): validation checks exactly the immediate items of the
list it is given (the flat `items` array, or each section's `items`): it
succeeds iff every top-level item has a string text with non-empty trim,
and it never inspects `children` (dropping all children leaves the
validator's behaviour unchanged at every start index). -/
theorem c6_validation_is_top_level_only (items : List RawItem) (loc : String) :
    (validateItemsArray items loc = Except.ok () ↔
      ∀ it ∈ items, itemTextOk it = true) ∧
    validateItemsArray (items.map dropChildren) loc = validateItemsArray items loc :=
  ⟨validateItemsArrayFrom_ok_iff items loc 0,
   validateItemsArrayFrom_dropChildren items loc 0⟩

/-- C7: when a list longer than 3 contains a high-importance item, the
serial-position rule earns `15 - 5 * v` points where `v` counts the
high-importance items outside both the primacy zone (first 2) and the
recency zone (last 1), with one warning per such item; when no item
carries any importance tag and the list is longer than 4, exactly one
suggestion-severity issue is emitted with no deduction. -/
theorem c7_serial_position (items : List BulletItem) :
    (3 < items.length →
      (∃ it ∈ items, it.importance = some Importance.high) →
      (validateSerialPosition items).earned_points = 15 - 5 * highValleyCount items ∧
      (validateSerialPosition items).issues.length = highValleyCount items ∧
      ∀ iss ∈ (validateSerialPosition items).issues,
        iss.severity = Severity.warning) ∧
    ((∀ it ∈ items, it.importance = none) → 4 < items.length →
      (validateSerialPosition items).earned_points = 15 ∧
      (validateSerialPosition items).issues.length = 1 ∧
      ∀ iss ∈ (validateSerialPosition items).issues,
        iss.severity = Severity.suggestion) := by
  constructor
  · intro hlen hex
    obtain ⟨it, hmem, hhigh⟩ := hex
    have hany : (items.any fun it => it.importance.isSome) = true :=
      List.any_eq_true.mpr ⟨it, hmem, by rw [hhigh]; rfl⟩
    unfold validateSerialPosition mkScore
    rw [if_pos ⟨hany, hlen⟩]
    refine ⟨rfl, ?_, ?_⟩
    · simp only [List.length_map]
      rfl
    · intro iss hiss
      simp only [List.mem_map] at hiss
      obtain ⟨p, _, rfl⟩ := hiss
      rfl
  · intro hnone hlen4
    have hany : (items.any fun it => it.importance.isSome) = false := by
      rw [List.any_eq_false]
      intro it hmem
      rw [hnone it hmem]
      simp
    unfold validateSerialPosition mkScore
    rw [if_neg (by rw [hany]; simp), if_pos hlen4]
    refine ⟨rfl, rfl, ?_⟩
    intro iss hiss
    rw [List.mem_singleton] at hiss
    subst hiss
    rfl

/-- C7 witness: on the five-item list with one high-importance item at
0-based index 2, the rule earns 10 of 15 with exactly one warning, and on
the untagged five-item list exactly one suggestion issue appears. -/
theorem c7_serial_position_witness :
    ((validateSerialPosition ex5High).earned_points = 15 - 5 * highValleyCount ex5High ∧
      highValleyCount ex5High = 1 ∧
      (validateSerialPosition ex5High).earned_points = 10) ∧
    (validateSerialPosition ex5None).issues.length = 1 :=
  ⟨⟨((c7_serial_position ex5High).1 (by decide)
      ⟨biHigh "Gamma critical point",
        List.mem_cons_of_mem _ (List.mem_cons_of_mem _ (List.mem_cons_self _ _)),
        rfl⟩).1,
    by decide, by decide⟩,
   ((c7_serial_position ex5None).2 (by decide) (by decide)).2.1⟩

/-- C8 counterexample: on the text `thing is here`, the claimed cascade
(with the non-gerund exclusion for `thing`) yields `sentence`, but the
flat-only variant of the classifier — one of the two classifiers the
claim covers — lacks the exclusion and yields `verb-gerund`. -/
theorem c8_counterexample :
    detectGrammarPatternFlat "thing is here" = GrammarPattern.verbGerund ∧
    spec_classify "thing is here" = GrammarPattern.sentence := by
  constructor <;> decide

/-- C8 (amended): the sections-capable classifier implements exactly the
claimed cascade (imperative lexicon, then `-ing` with length over 4
excluding the fixed non-gerund nouns, then determiners, then the
auxiliary-substring scan, else unknown), deterministically and totally;
the flat-only variant implements the same cascade but without the
non-gerund exclusion. -/
theorem c8_classifier_cascade (text : String) :
    detectGrammarPattern text = spec_classify text ∧
    detectGrammarPatternFlat text = spec_classifyNoExclusion text :=
  ⟨rfl, rfl⟩

theorem keyOrderAux_nodup [DecidableEq α] :
    ∀ (l seen : List α), (keyOrderAux l seen).Nodup ∧
      ∀ x ∈ keyOrderAux l seen, x ∉ seen := by
  intro l
  induction l with
  | nil => intro seen; simp [keyOrderAux]
  | cons a rest ih =>
    intro seen
    unfold keyOrderAux
    by_cases h : a ∈ seen
    · rw [if_pos h]
      exact ih seen
    · rw [if_neg h]
      obtain ⟨hnd, hni⟩ := ih (a :: seen)
      refine ⟨List.nodup_cons.mpr ⟨?_, hnd⟩, ?_⟩
      · intro hmem
        exact hni a hmem (List.mem_cons_self _ _)
      · intro x hx
        rw [List.mem_cons] at hx
        rcases hx with rfl | hx
        · exact h
        · intro hxs
          exact hni x hx (List.mem_cons_of_mem _ hxs)

theorem keyOrderAux_cons_mem [DecidableEq α] (a : α) (rest seen : List α)
    (h : a ∈ seen) : keyOrderAux (a :: rest) seen = keyOrderAux rest seen := by
  simp only [keyOrderAux]
  rw [if_pos h]

theorem keyOrderAux_cons_not_mem [DecidableEq α] (a : α) (rest seen : List α)
    (h : a ∉ seen) :
    keyOrderAux (a :: rest) seen = a :: keyOrderAux rest (a :: seen) := by
  simp only [keyOrderAux]
  rw [if_neg h]

theorem collectUnique_take (l : List ValidationIssue) :
    ∀ acc : List String, acc.length < 3 →
      collectUnique l acc =
        acc.reverse ++ (keyOrderAux (sugTexts l) acc).take (3 - acc.length) := by
  induction l with
  | nil =>
    intro acc _
    simp [collectUnique, sugTexts, keyOrderAux]
  | cons i rest ih =>
    intro acc hacc
    cases hsug : i.suggestion with
    | none =>
      have hst : sugText i = none := by simp [sugText, hsug]
      simp only [collectUnique, hsug]
      rw [if_neg (show ¬(3:Nat) ≤ acc.length by omega)]
      rw [ih acc hacc]
      simp only [sugTexts, List.filterMap_cons, hst]
    | some s =>
      by_cases hs : s = ""
      · have hst : sugText i = none := by simp [sugText, hsug, hs]
        simp only [collectUnique, hsug]
        rw [show (if s ≠ "" ∧ s ∉ acc then s :: acc else acc) = acc from
          if_neg (by simp [hs])]
        rw [if_neg (show ¬(3:Nat) ≤ acc.length by omega)]
        rw [ih acc hacc]
        simp only [sugTexts, List.filterMap_cons, hst]
      · have hst : sugText i = some s := by simp [sugText, hsug, hs]
        by_cases hmem : s ∈ acc
        · simp only [collectUnique, hsug]
          rw [show (if s ≠ "" ∧ s ∉ acc then s :: acc else acc) = acc from
            if_neg (by simp [hmem])]
          rw [if_neg (show ¬(3:Nat) ≤ acc.length by omega)]
          rw [ih acc hacc]
          simp only [sugTexts, List.filterMap_cons, hst]
          rw [keyOrderAux_cons_mem _ _ _ hmem]
        · simp only [collectUnique, hsug]
          rw [show (if s ≠ "" ∧ s ∉ acc then s :: acc else acc) = s :: acc from
            if_pos ⟨hs, hmem⟩]
          simp only [sugTexts, List.filterMap_cons, hst]
          rw [keyOrderAux_cons_not_mem _ _ _ hmem]
          by_cases h3 : 3 ≤ (s :: acc).length
          · rw [if_pos h3]
            have ht : 3 - acc.length = 1 := by
              simp only [List.length_cons] at h3
              omega
            rw [ht, List.reverse_cons]
            rfl
          · rw [if_neg h3]
            have hlt : (s :: acc).length < 3 := Nat.not_le.mp h3
            rw [ih (s :: acc) hlt, List.reverse_cons]
            have hlen : 3 - (s :: acc).length = 2 - acc.length := by
              simp only [List.length_cons]
              omega
            have hsucc : 3 - acc.length = (2 - acc.length) + 1 := by
              simp only [List.length_cons] at h3
              omega
            rw [hlen, hsucc, List.take_succ_cons, List.append_assoc,
              List.singleton_append]
            rfl

theorem topImprovements_items_normal (l : List ValidationIssue) (ov : Nat) :
    (getTopImprovements l ov).items =
      (keyOrder (sugTexts (sortBySeverity (l.filter truthySug)))).take 3 := by
  show collectUnique (sortBySeverity (l.filter truthySug)) [] = _
  rw [collectUnique_take _ [] (by decide)]
  rfl

theorem mem_of_mem_sortBySeverity {x : ValidationIssue}
    {l : List ValidationIssue} (h : x ∈ sortBySeverity l) : x ∈ l := by
  unfold sortBySeverity at h
  rw [List.mem_append, List.mem_append] at h
  rcases h with (h | h) | h <;> exact List.mem_of_mem_filter h

theorem filterMap_suggestion_of_truthy (l : List ValidationIssue)
    (h : ∀ i ∈ l, truthySug i = true) :
    l.filterMap (fun i => i.suggestion) = sugTexts l := by
  induction l with
  | nil => rfl
  | cons i rest ih =>
    have hi := h i (List.mem_cons_self _ _)
    unfold truthySug at hi
    rw [sugTexts, List.filterMap_cons, List.filterMap_cons]
    cases hsug : i.suggestion with
    | none => rw [hsug] at hi; cases hi
    | some s =>
      rw [hsug] at hi
      have hs : sugText i = some s := by
        simp only [sugText, hsug]
        rw [if_neg (by simpa using hi)]
      rw [hs, ← sugTexts]
      rw [ih (fun j hj => h j (List.mem_cons_of_mem _ hj))]

/-- C9: the top-improvements list equals the spec pipeline — filter to
issues carrying a suggestion, stable-sort by severity rank (error before
warning before suggestion), deduplicate by exact suggestion text keeping
first occurrences, take 3 — in both server variants, and therefore has at
most 3 entries, all distinct. -/
theorem c9_top_improvements (issues : List ValidationIssue) (score : Nat) :
    (getTopImprovements issues score).items = spec_topImprovements issues ∧
    getTopImprovementsFlat issues = spec_topImprovements issues ∧
    (getTopImprovements issues score).items.length ≤ 3 ∧
    (getTopImprovements issues score).items.Nodup := by
  have htruthy : ∀ i ∈ sortBySeverity (issues.filter truthySug), truthySug i = true :=
    fun i hi => List.of_mem_filter (mem_of_mem_sortBySeverity hi)
  have hmain : (getTopImprovements issues score).items = spec_topImprovements issues := by
    rw [topImprovements_items_normal]
    unfold spec_topImprovements
    rw [filterMap_suggestion_of_truthy _ htruthy]
  refine ⟨hmain, hmain, ?_, ?_⟩
  · rw [topImprovements_items_normal]
    exact List.length_take_le _ _
  · rw [topImprovements_items_normal]
    exact ((keyOrderAux_nodup _ []).1).sublist (List.take_sublist _ _)

theorem filter_truthy_map_retag (W : List ValidationIssue) :
    (W.map retagError).filter truthySug = (W.filter truthySug).map retagError := by
  induction W with
  | nil => rfl
  | cons w rest ih =>
    simp only [List.map_cons, List.filter_cons]
    rw [show truthySug (retagError w) = truthySug w from rfl]
    cases h : truthySug w
    · simp [ih]
    · simp [ih]

theorem sugTexts_append (l r : List ValidationIssue) :
    sugTexts (l ++ r) = sugTexts l ++ sugTexts r := by
  unfold sugTexts
  rw [List.filterMap_append]

theorem sugTexts_map_retag (W : List ValidationIssue) :
    sugTexts (W.map retagError) = sugTexts W := by
  induction W with
  | nil => rfl
  | cons w rest ih =>
    unfold sugTexts at ih ⊢
    rw [List.map_cons, List.filterMap_cons, List.filterMap_cons,
      show sugText (retagError w) = sugText w from rfl, ih]

theorem filter_rank_eq_self (l : List ValidationIssue) (k : Nat)
    (h : ∀ i ∈ l, severityRank i.severity = k) :
    l.filter (fun i => decide (severityRank i.severity = k)) = l :=
  List.filter_eq_self.mpr (fun a ha => decide_eq_true (h a ha))

theorem filter_rank_eq_nil (l : List ValidationIssue) (k : Nat)
    (h : ∀ i ∈ l, severityRank i.severity ≠ k) :
    l.filter (fun i => decide (severityRank i.severity = k)) = [] := by
  rw [List.filter_eq_nil_iff]
  intro a ha
  simpa using h a ha

theorem sugTexts_sort_EWS (A Wn C : List ValidationIssue)
    (hA : ∀ i ∈ A, severityRank i.severity = 0)
    (hW : ∀ i ∈ Wn, severityRank i.severity = 1)
    (hC : ∀ i ∈ C, severityRank i.severity = 2) :
    sugTexts (sortBySeverity ((A ++ Wn.map retagError) ++ C)) =
      sugTexts (sortBySeverity ((A ++ Wn) ++ C)) := by
  have hWm : ∀ i ∈ Wn.map retagError, severityRank i.severity = 0 := by
    intro i hi
    rw [List.mem_map] at hi
    obtain ⟨w, _, rfl⟩ := hi
    rfl
  unfold sortBySeverity
  simp only [List.filter_append]
  rw [filter_rank_eq_self A 0 hA, filter_rank_eq_self (Wn.map retagError) 0 hWm,
    filter_rank_eq_nil C 0 (fun i hi => by rw [hC i hi]; decide),
    filter_rank_eq_nil A 1 (fun i hi => by rw [hA i hi]; decide),
    filter_rank_eq_nil (Wn.map retagError) 1 (fun i hi => by rw [hWm i hi]; decide),
    filter_rank_eq_nil C 1 (fun i hi => by rw [hC i hi]; decide),
    filter_rank_eq_nil A 2 (fun i hi => by rw [hA i hi]; decide),
    filter_rank_eq_nil (Wn.map retagError) 2 (fun i hi => by rw [hWm i hi]; decide),
    filter_rank_eq_self C 2 hC,
    filter_rank_eq_nil Wn 0 (fun i hi => by rw [hW i hi]; decide),
    filter_rank_eq_self Wn 1 hW,
    filter_rank_eq_nil Wn 2 (fun i hi => by rw [hW i hi]; decide)]
  simp [sugTexts_append, sugTexts_map_retag, List.append_assoc]

theorem sev_of_mem_flatMap_filter (sections : List BulletSection)
    (gctx : Context) (sv : Severity) :
    ∀ i ∈ sections.flatMap (fun sec => ((sectionScoreOf gctx sec).issues).filter
      (fun i => decide (i.severity = sv))), i.severity = sv := by
  intro i hi
  rw [List.mem_flatMap] at hi
  obtain ⟨sec, _, hi⟩ := hi
  rw [List.mem_filter] at hi
  exact of_decide_eq_true hi.2

theorem topImprovements_strict_invariant (E W S : List ValidationIssue) (ov : Nat)
    (hE : ∀ i ∈ E, i.severity = Severity.error)
    (hW : ∀ i ∈ W, i.severity = Severity.warning)
    (hS : ∀ i ∈ S, i.severity = Severity.suggestion) :
    getTopImprovements (((E ++ W.map retagError) ++ []) ++ S) ov =
      getTopImprovements ((E ++ W) ++ S) ov := by
  have hA : ∀ i ∈ E.filter truthySug, severityRank i.severity = 0 :=
    fun i hi => by rw [hE i (List.mem_of_mem_filter hi)]; rfl
  have hW1 : ∀ i ∈ W.filter truthySug, severityRank i.severity = 1 :=
    fun i hi => by rw [hW i (List.mem_of_mem_filter hi)]; rfl
  have hC2 : ∀ i ∈ S.filter truthySug, severityRank i.severity = 2 :=
    fun i hi => by rw [hS i (List.mem_of_mem_filter hi)]; rfl
  have hfilS : (((E ++ W.map retagError) ++ []) ++ S).filter truthySug =
      (E.filter truthySug ++ (W.filter truthySug).map retagError) ++
        S.filter truthySug := by
    simp only [List.filter_append, List.filter_nil, List.append_nil,
      filter_truthy_map_retag]
  have hfilN : ((E ++ W) ++ S).filter truthySug =
      (E.filter truthySug ++ W.filter truthySug) ++ S.filter truthySug := by
    simp only [List.filter_append]
  have hkey : collectUnique (sortBySeverity
        ((((E ++ W.map retagError) ++ []) ++ S).filter truthySug)) [] =
      collectUnique (sortBySeverity (((E ++ W) ++ S).filter truthySug)) [] := by
    rw [hfilS, hfilN, collectUnique_take _ [] (by decide),
      collectUnique_take _ [] (by decide),
      sugTexts_sort_EWS (E.filter truthySug) (W.filter truthySug)
        (S.filter truthySug) hA hW1 hC2]
  simp only [getTopImprovements]
  rw [hkey]

set_option maxHeartbeats 1000000 in
/-- C10 counterexample: on a concrete 3-item input with one warning and
no errors, enabling strict mode also changes the `summary` string (which
is computed from the post-promotion error and warning counts), so strict
mode does not change only the errors and warnings buckets. -/
theorem c10_counterexample :
    (analyzeFlat ⟨true, true⟩ exStrict Context.document none none none).summary ≠
      (analyzeFlat ⟨false, true⟩ exStrict Context.document none none none).summary := by
  decide

set_option maxHeartbeats 1600000 in
/-- C10 (amended): enabling strict mode changes only the errors bucket,
the warnings bucket, and the summary string: the per-rule scores array —
with every issue's original severity intact — and the top_improvements
result are identical between strict and non-strict runs with the citation
toggle held fixed, in both the flat and the sectioned pipeline. -/
theorem c10_strict_frame (cite : Bool) (items : List BulletItem)
    (sections : List BulletSection) (gctx : Context) (t d i : Option String) :
    (analyzeFlat ⟨true, cite⟩ items gctx t d i).scores =
      (analyzeFlat ⟨false, cite⟩ items gctx t d i).scores ∧
    (analyzeFlat ⟨true, cite⟩ items gctx t d i).top_improvements =
      (analyzeFlat ⟨false, cite⟩ items gctx t d i).top_improvements ∧
    (analyzeSections ⟨true, cite⟩ sections gctx t d i).scores =
      (analyzeSections ⟨false, cite⟩ sections gctx t d i).scores ∧
    (analyzeSections ⟨true, cite⟩ sections gctx t d i).top_improvements =
      (analyzeSections ⟨false, cite⟩ sections gctx t d i).top_improvements := by
  refine ⟨rfl, rfl, rfl, ?_⟩
  exact topImprovements_strict_invariant
    (sections.flatMap fun sec =>
      ((sectionScoreOf gctx sec).issues).filter
        (fun i => decide (i.severity = Severity.error)))
    (sections.flatMap fun sec =>
      ((sectionScoreOf gctx sec).issues).filter
        (fun i => decide (i.severity = Severity.warning)))
    (sections.flatMap fun sec =>
      ((sectionScoreOf gctx sec).issues).filter
        (fun i => decide (i.severity = Severity.suggestion)))
    (jsRound (((sections.map (sectionScoreOf gctx)).map (fun s => s.score)).sum)
      ((sections.map (sectionScoreOf gctx)).length))
    (sev_of_mem_flatMap_filter sections gctx Severity.error)
    (sev_of_mem_flatMap_filter sections gctx Severity.warning)
    (sev_of_mem_flatMap_filter sections gctx Severity.suggestion)

theorem runValidators_rules (items : List BulletItem) :
    (runValidators items).map (fun s => s.rule) = RULE_NAMES := by
  simp only [runValidators, List.map_cons, List.map_nil, RULE_NAMES,
    (validateListLength_fields items).1, (validateHierarchy_fields items).1,
    (validateLineLength_fields items).1, (validateSerialPosition_fields items).1,
    (validateStructure_fields items).1, (validateFirstWords_fields items).1,
    (validateFormatting_fields items).1]

theorem sectionRuleScores_rules (sc : BulletSection) :
    (sectionRuleScores sc).map (fun s => s.rule) = RULE_NAMES := by
  show ((runValidators sc.items).map (tagRuleScore sc.title)).map
    (fun s => s.rule) = RULE_NAMES
  rw [List.map_map]
  have hc : ((fun s : RuleScore => s.rule) ∘ tagRuleScore sc.title) =
      fun s : RuleScore => s.rule := rfl
  rw [hc]
  exact runValidators_rules sc.items

theorem map_rule_flatMap (secs : List BulletSection) :
    ((secs.flatMap sectionRuleScores).map (fun s => s.rule)) =
      secs.flatMap (fun _ => RULE_NAMES) := by
  induction secs with
  | nil => rfl
  | cons sc rest ih =>
    rw [List.flatMap_cons, List.flatMap_cons, List.map_append, ih,
      sectionRuleScores_rules]

theorem keyOrderAux_all_seen [DecidableEq α] :
    ∀ (r seen : List α), (∀ x ∈ r, x ∈ seen) → keyOrderAux r seen = [] := by
  intro r
  induction r with
  | nil => intro seen _; rfl
  | cons a rest ih =>
    intro seen h
    rw [keyOrderAux_cons_mem _ _ _ (h a (List.mem_cons_self _ _))]
    exact ih seen (fun x hx => h x (List.mem_cons_of_mem _ hx))

theorem keyOrderAux_append_absorb [DecidableEq α] :
    ∀ (l r seen : List α), (∀ x ∈ r, x ∈ l ∨ x ∈ seen) →
      keyOrderAux (l ++ r) seen = keyOrderAux l seen := by
  intro l
  induction l with
  | nil =>
    intro r seen h
    rw [List.nil_append]
    exact keyOrderAux_all_seen r seen
      (fun x hx => (h x hx).elim (fun hc => absurd hc (List.not_mem_nil x)) id)
  | cons a l' ih =>
    intro r seen h
    rw [List.cons_append]
    by_cases hmem : a ∈ seen
    · rw [keyOrderAux_cons_mem _ _ _ hmem, keyOrderAux_cons_mem _ _ _ hmem]
      refine ih r seen (fun x hx => (h x hx).elim (fun hc => ?_) Or.inr)
      rw [List.mem_cons] at hc
      rcases hc with rfl | hc
      · exact Or.inr hmem
      · exact Or.inl hc
    · rw [keyOrderAux_cons_not_mem _ _ _ hmem, keyOrderAux_cons_not_mem _ _ _ hmem]
      congr 1
      refine ih r (a :: seen) (fun x hx => (h x hx).elim (fun hc => ?_)
        (fun hs => Or.inr (List.mem_cons_of_mem _ hs)))
      rw [List.mem_cons] at hc
      rcases hc with rfl | hc
      · exact Or.inr (List.mem_cons_self _ _)
      · exact Or.inl hc

theorem keys_of_flatMap (sc : BulletSection) (rest : List BulletSection) :
    keyOrder (((sc :: rest).flatMap sectionRuleScores).map (fun s => s.rule)) =
      RULE_NAMES := by
  rw [map_rule_flatMap, List.flatMap_cons]
  show keyOrderAux (RULE_NAMES ++ rest.flatMap (fun _ => RULE_NAMES)) [] = _
  rw [keyOrderAux_append_absorb RULE_NAMES _ []
    (fun x hx => Or.inl (by
      rw [List.mem_flatMap] at hx
      obtain ⟨_, _, hx⟩ := hx
      exact hx))]
  decide

theorem filter_flatMap_comm {α β : Type} (l : List α) (f : α → List β)
    (p : β → Bool) :
    (l.flatMap f).filter p = l.flatMap (fun a => (f a).filter p) := by
  induction l with
  | nil => rfl
  | cons a rest ih =>
    rw [List.flatMap_cons, List.flatMap_cons, List.filter_append, ih]

theorem sectionRuleScores_filter (sc : BulletSection) :
    ∀ r ∈ RULE_NAMES,
      (sectionRuleScores sc).filter (fun s => decide (s.rule = r)) =
        [taggedRuleByName r sc] := by
  have e1 : (tagRuleScore sc.title (validateListLength sc.items)).rule =
    "LIST_LENGTH" := (validateListLength_fields sc.items).1
  have e2 : (tagRuleScore sc.title (validateHierarchy sc.items)).rule =
    "HIERARCHY" := (validateHierarchy_fields sc.items).1
  have e3 : (tagRuleScore sc.title (validateLineLength sc.items)).rule =
    "LINE_LENGTH" := (validateLineLength_fields sc.items).1
  have e4 : (tagRuleScore sc.title (validateSerialPosition sc.items)).rule =
    "SERIAL_POSITION" := (validateSerialPosition_fields sc.items).1
  have e5 : (tagRuleScore sc.title (validateStructure sc.items)).rule =
    "STRUCTURE" := (validateStructure_fields sc.items).1
  have e6 : (tagRuleScore sc.title (validateFirstWords sc.items)).rule =
    "FIRST_WORDS" := (validateFirstWords_fields sc.items).1
  have e7 : (tagRuleScore sc.title (validateFormatting sc.items)).rule =
    "FORMATTING" := (validateFormatting_fields sc.items).1
  have hlist : sectionRuleScores sc =
      [tagRuleScore sc.title (validateListLength sc.items),
       tagRuleScore sc.title (validateHierarchy sc.items),
       tagRuleScore sc.title (validateLineLength sc.items),
       tagRuleScore sc.title (validateSerialPosition sc.items),
       tagRuleScore sc.title (validateStructure sc.items),
       tagRuleScore sc.title (validateFirstWords sc.items),
       tagRuleScore sc.title (validateFormatting sc.items)] := rfl
  intro r hr
  rw [hlist]
  simp only [RULE_NAMES, List.mem_cons, List.not_mem_nil, or_false] at hr
  rcases hr with rfl | rfl | rfl | rfl | rfl | rfl | rfl <;>
    (simp only [List.filter_cons, List.filter_nil, e1, e2, e3, e4, e5, e6, e7]
     simp [taggedRuleByName, ruleByName])

theorem group_filter_eq (r : String) (hr : r ∈ RULE_NAMES)
    (secs : List BulletSection) :
    (secs.flatMap sectionRuleScores).filter (fun s => decide (s.rule = r)) =
      secs.map (taggedRuleByName r) := by
  induction secs with
  | nil => rfl
  | cons sc rest ih =>
    rw [List.flatMap_cons, List.filter_append, ih,
      sectionRuleScores_filter sc r hr, List.singleton_append, List.map_cons]

/-- C5: on any non-empty sectioned input, the document-level score is the
rounded arithmetic mean of the per-section 0-100 scores, and the
aggregated rule scores are exactly one merged score per rule identifier
whose max and earned points are the rounded per-section means for that
rule and whose issues are the concatenation of that rule's
section-tagged issues across sections, in section order. -/
theorem c5_sectioned_aggregation (cfg : ValidationConfig) (sec : BulletSection)
    (rest : List BulletSection) (gctx : Context) (t d i : Option String) :
    (analyzeSections cfg (sec :: rest) gctx t d i).overall_score =
      jsRound (((sec :: rest).map sectionScore100).sum) (sec :: rest).length ∧
    aggregateRuleScores ((sec :: rest).flatMap sectionRuleScores) =
      spec_mergedScores (sec :: rest) := by
  constructor
  · show jsRound ((((sec :: rest).map (sectionScoreOf gctx)).map
        (fun s => s.score)).sum) (((sec :: rest).map (sectionScoreOf gctx)).length) = _
    rw [List.map_map, List.length_map]
    rfl
  · unfold aggregateRuleScores spec_mergedScores
    rw [keys_of_flatMap]
    refine List.map_congr_left (fun r hr => ?_)
    rw [group_filter_eq r hr (sec :: rest)]
    simp only [List.map_map, List.length_map, List.flatMap_map]
    rfl

end BulletMcp
